import Mathlib

/-!
Verification of the Cloudflare API transport layer
(`packages/wrangler/src/cfetch/internal.ts`).

The TypeScript module is embedded shallowly:

* JS `Record<string, string>` header objects become association lists
  (`HeaderMap`) with JS-object operations `lookupH` (property read),
  `containsH` (the `in` operator), `setH` (property assignment, updating in
  place when the key exists), and `eraseH` (the `delete` operator).
* External collaborators are inputs: `loginOrRefreshIfRequired` becomes a
  `loggedIn : Bool` argument, `requireApiToken` the `auth : ApiCredentials`
  argument, `getCloudflareApiBaseUrl` a `baseUrl : String` argument, and the
  single network response delivered by `fetch` becomes a `resp : Resp`
  argument.  `parseJSON` (from `../parse`) becomes a caller-supplied
  `parse : String → Option J`.
* Fallible code returns `Except FetchErr _`; each thrown JS error is a
  `FetchErr` constructor.
* The request actually handed to `fetch` is reified as a `Request` value, so
  "how many fetches a call issues" is the length of an explicit request list.
-/

/-- Model of JS `String.prototype.startsWith` on the character level. -/
def charsStartWith : List Char → List Char → Bool
  | _, [] => true
  | [], _ :: _ => false
  | c :: cs, d :: ds => c == d && charsStartWith cs ds

/-- `strStartsWith s p` models the JS expression `s.startsWith(p)`. -/
def strStartsWith (s p : String) : Bool :=
  charsStartWith s.data p.data

/-- Lower-casing used to model the case-insensitive `Headers.get` lookup. -/
def strLower (s : String) : String :=
  String.mk (s.data.map Char.toLower)

/-- A JS `Record<string, string>` of HTTP headers, as an association list in
property-insertion order. -/
abbrev HeaderMap := List (String × String)

/-- Property read `h[k]` on a header record. -/
def lookupH : HeaderMap → String → Option String
  | [], _ => none
  | (k, v) :: t, key => if k = key then some v else lookupH t key

/-- The JS `in` operator: `key in h`. -/
def containsH (h : HeaderMap) (key : String) : Bool :=
  (lookupH h key).isSome

/-- Property assignment `h[k] = v`: updates the existing entry in place, or
appends a new one. -/
def setH : HeaderMap → String → String → HeaderMap
  | [], key, v => [(key, v)]
  | (k, w) :: t, key, v =>
      if k = key then (key, v) :: t else (k, w) :: setH t key v

/-- The JS `delete h[k]` operator (header records never hold duplicate keys,
so removing every entry with the key is the same operation). -/
def eraseH (h : HeaderMap) (key : String) : HeaderMap :=
  h.filter (fun p => !(p.1 == key))

/-- Case-insensitive lookup modelling `Headers.prototype.get`. -/
def headersGet (h : HeaderMap) (key : String) : Option String :=
  (h.find? (fun p => strLower p.1 == strLower key)).map (fun p => p.2)

/-- `ApiCredentials` from `../user`: either `{ apiToken }` or
`{ authKey, authEmail }`.  The source branches on `"apiToken" in auth`. -/
inductive ApiCredentials where
  | apiToken (token : String)
  | keyEmail (authKey : String) (authEmail : String)
deriving DecidableEq, Repr

/-- Whether the credential carries an `apiToken` field. -/
def ApiCredentials.isToken : ApiCredentials → Bool
  | .apiToken _ => true
  | .keyEmail _ _ => false

/-- The subset of undici `RequestInit` the module reads: `method`, `headers`
and `body` (the body is only forwarded, so a plain string stands for it). -/
structure RequestInit where
  method : Option String := none
  headers : HeaderMap := []
  body : Option String := none
deriving DecidableEq, Repr

/-- The outgoing request descriptor handed to `fetch`. -/
structure Request where
  method : String
  url : String
  headers : HeaderMap
  body : Option String
deriving DecidableEq, Repr

/-- An entry of a parsed multipart form: `FormData` values are either `File`
objects or plain strings. -/
structure FileV where
  name : String
  contents : String
  ftype : String := ""
deriving DecidableEq, Repr

/-- A value produced by `form.entries()`. -/
inductive FormEntry where
  | file (f : FileV)
  | str (s : String)
deriving DecidableEq, Repr

/-- The undici `Response` surface the module reads.  `body = none` models a
null body stream; `text` is derived (`response.text()` of a null body is the
empty string).  `form` is the `response.formData()` view of a multipart body;
the wire-level multipart encoding is library territory and not re-modelled. -/
structure Resp where
  status : Nat
  statusText : String := ""
  headers : HeaderMap := []
  body : Option String := none
  form : List (String × FormEntry) := []
deriving DecidableEq, Repr

/-- `response.ok`: status in the inclusive range 200–299. -/
def Resp.ok (r : Resp) : Bool :=
  200 ≤ r.status && r.status ≤ 299

/-- `await response.text()`. -/
def Resp.text (r : Resp) : String :=
  r.body.getD ""

/-- `await response.arrayBuffer()`: the raw body bytes, modelled as the raw
body string (no parsing of any kind). -/
def Resp.arrayBuffer (r : Resp) : String :=
  r.body.getD ""

/-- Modelled from the spec: the `APIError` class of `../parse` (not part of
this fragment).  The call site constructs it from a message `text`, a list of
`notes` (each a `{ text }` object, flattened here to its string), and the
HTTP `status`. -/
structure APIErr where
  text : String
  notes : List String
  status : Nat
deriving DecidableEq, Repr

/-- Every way a call of this module can throw. -/
inductive FetchErr where
  | assertFail (msg : String)
  | userError (msg : String)
  | jsError (msg : String)
  | apiError (e : APIErr)
deriving DecidableEq, Repr

/-- Modelled from the spec: the version field of `package.json` (the file is
not part of this fragment).  Its value is immaterial to every claim. -/
def wranglerVersion : String := "0.0.0"

/-- `cloneHeaders`: collapses any `HeadersInit` shape into a fresh
`Record<string, string>`.  On the association-list model all three source
branches (`Headers`, array of pairs, plain object spread) amount to rebuilding
the record entry by entry, later entries overwriting earlier ones. -/
def cloneHeaders (h : HeaderMap) : HeaderMap :=
  h.foldl (fun acc p => setH acc p.1 p.2) []

/-- `addAuthorizationHeaderIfUnspecified` from the source: if the caller set
no `Authorization` header, install the bearer header for a token credential,
or the `X-Auth-Key` / `X-Auth-Email` pair otherwise. -/
def addAuthorizationHeaderIfUnspecified (headers : HeaderMap)
    (auth : ApiCredentials) : HeaderMap :=
  if containsH headers "Authorization" then headers
  else
    match auth with
    | .apiToken t => setH headers "Authorization" ("Bearer " ++ t)
    | .keyEmail k e => setH (setH headers "X-Auth-Key" k) "X-Auth-Email" e

/-- `addUserAgent` from the source. -/
def addUserAgent (headers : HeaderMap) : HeaderMap :=
  setH headers "User-Agent" ("wrangler/" ++ wranglerVersion)

/-- The header pipeline shared verbatim by `performApiFetch`,
`fetchR2Objects` and `fetchWorker`: clone the caller headers, add the
authentication header when unspecified, add the user agent. -/
def buildHeaders (initHeaders : HeaderMap) (auth : ApiCredentials) : HeaderMap :=
  addUserAgent (addAuthorizationHeaderIfUnspecified (cloneHeaders initHeaders) auth)

/-- The message of the failed `assert(resource.startsWith("/"), ...)`. -/
def assertMsg (resource : String) : String :=
  "CF API fetch - resource path must start with a \"/\" but got \"" ++
    resource ++ "\""

/-- The message of the `Error` thrown by `fetchKVGetValue`, `fetchR2Objects`
and `fetchWorker` (the trailing `);` is verbatim from the source template). -/
def failedFetchMsg (resource : String) (resp : Resp) : String :=
  "Failed to fetch " ++ resource ++ " - " ++ toString resp.status ++ ": " ++
    resp.statusText ++ ");"

/-- `performApiFetch`: assert the resource shape, require a login, build the
headers, and return the single request handed to `fetch`. -/
def performApiFetch (baseUrl resource : String) (queryParams : Option String)
    (init : RequestInit) (loggedIn : Bool) (auth : ApiCredentials) :
    Except FetchErr Request :=
  let method := init.method.getD "GET"
  if strStartsWith resource "/" = false then
    .error (.assertFail (assertMsg resource))
  else if loggedIn = false then
    .error (.userError "Not logged in.")
  else
    let headers := buildHeaders init.headers auth
    let queryString := match queryParams with
      | some q => "?" ++ q
      | none => ""
    .ok { method := method, url := baseUrl ++ resource ++ queryString,
          headers := headers, body := init.body }

/-- The list of outbound requests a call of `performApiFetch` issues: exactly
the one `fetch` at the end of the function, reached only when no check threw. -/
def issuedRequests (e : Except FetchErr Request) : List Request :=
  match e with
  | .ok r => [r]
  | .error _ => []

/-- Requests issued by one `performApiFetch` call. -/
def performApiFetchRequests (baseUrl resource : String)
    (queryParams : Option String) (init : RequestInit) (loggedIn : Bool)
    (auth : ApiCredentials) : List Request :=
  issuedRequests (performApiFetch baseUrl resource queryParams init loggedIn auth)

/-- The exact empty-body envelope string of the 204/205 special case. -/
def emptyBody : String :=
  "\x7b\"result\": \x7b\x7d, \"success\": true, \"errors\": [], \"messages\": []\x7d"

/-- `truncate` from the source. -/
def truncate (text : String) (maxLength : Nat) : String :=
  if text.length ≤ maxLength then text
  else text.take maxLength ++ "... (length = " ++ toString text.length ++ ")"

/-- `fetchInternal`: run `performApiFetch`, read the body text, special-case
empty 204/205 bodies, otherwise parse, wrapping parse failures in an
`APIError`.  `parse` stands for `parseJSON` of `../parse`; a `parse` failure
on the constant envelope would propagate as the uncaught `ParseError` of that
module, which this fragment never constructs. -/
def fetchInternal {J : Type} (parse : String → Option J)
    (baseUrl resource : String) (queryParams : Option String)
    (init : RequestInit) (loggedIn : Bool) (auth : ApiCredentials)
    (resp : Resp) : Except FetchErr J :=
  match performApiFetch baseUrl resource queryParams init loggedIn auth with
  | .error e => .error e
  | .ok _ =>
    let method := init.method.getD "GET"
    let jsonText := resp.text
    if jsonText = "" ∧ (resp.status = 204 ∨ resp.status = 205) then
      match parse emptyBody with
      | some v => .ok v
      | none => .error (.jsError "ParseError")
    else
      match parse jsonText with
      | some v => .ok v
      | none =>
        .error (.apiError
          { text := "Received a malformed response from the API",
            notes := [truncate jsonText 100,
              method ++ " " ++ resource ++ " -> " ++ toString resp.status ++
                " " ++ resp.statusText],
            status := resp.status })

/-- Requests issued by one `fetchInternal` call: the single fetch of the
`performApiFetch` it delegates to. -/
def fetchInternalRequests (baseUrl resource : String)
    (queryParams : Option String) (init : RequestInit) (loggedIn : Bool)
    (auth : ApiCredentials) : List Request :=
  issuedRequests (performApiFetch baseUrl resource queryParams init loggedIn auth)

/-- The URL `fetchKVGetValue` builds for its single fetch. -/
def kvResourceUrl (baseUrl accountId namespaceId key : String) : String :=
  baseUrl ++ "/accounts/" ++ accountId ++ "/storage/kv/namespaces/" ++
    namespaceId ++ "/values/" ++ key

/-- The request built by `fetchKVGetValue`: headers start from a fresh empty
record and receive only the authentication header (no user agent, no caller
headers). -/
def fetchKVGetValueRequest (baseUrl accountId namespaceId key : String)
    (loggedIn : Bool) (auth : ApiCredentials) : Except FetchErr Request :=
  if loggedIn = false then
    .error (.userError "Not logged in.")
  else
    .ok { method := "GET",
          url := kvResourceUrl baseUrl accountId namespaceId key,
          headers := addAuthorizationHeaderIfUnspecified [] auth,
          body := none }

/-- `fetchKVGetValue`: return the raw body buffer on an ok response, throw a
plain `Error` naming the URL, status and status text otherwise. -/
def fetchKVGetValue (baseUrl accountId namespaceId key : String)
    (loggedIn : Bool) (auth : ApiCredentials) (resp : Resp) :
    Except FetchErr String :=
  match fetchKVGetValueRequest baseUrl accountId namespaceId key loggedIn auth with
  | .error e => .error e
  | .ok _ =>
    if resp.ok then .ok resp.arrayBuffer
    else
      .error (.jsError
        (failedFetchMsg (kvResourceUrl baseUrl accountId namespaceId key) resp))

/-- Requests issued by one `fetchKVGetValue` call. -/
def fetchKVGetValueRequests (baseUrl accountId namespaceId key : String)
    (loggedIn : Bool) (auth : ApiCredentials) : List Request :=
  issuedRequests (fetchKVGetValueRequest baseUrl accountId namespaceId key loggedIn auth)

/-- The request built by `fetchR2Objects` (method and body ride along from
`bodyInit` exactly as in the source spread). -/
def fetchR2ObjectsRequest (baseUrl resource : String) (bodyInit : RequestInit)
    (loggedIn : Bool) (auth : ApiCredentials) : Except FetchErr Request :=
  if loggedIn = false then
    .error (.userError "Not logged in.")
  else
    .ok { method := bodyInit.method.getD "GET",
          url := baseUrl ++ resource,
          headers := buildHeaders bodyInit.headers auth,
          body := bodyInit.body }

/-- `fetchR2Objects`: an ok response with a non-null body is returned as is;
otherwise a 404 becomes `null`; every other outcome throws. -/
def fetchR2Objects (baseUrl resource : String) (bodyInit : RequestInit)
    (loggedIn : Bool) (auth : ApiCredentials) (resp : Resp) :
    Except FetchErr (Option Resp) :=
  match fetchR2ObjectsRequest baseUrl resource bodyInit loggedIn auth with
  | .error e => .error e
  | .ok _ =>
    if resp.ok && resp.body.isSome then .ok (some resp)
    else if resp.status == 404 then .ok none
    else .error (.jsError (failedFetchMsg resource resp))

/-- Requests issued by one `fetchR2Objects` call. -/
def fetchR2ObjectsRequests (baseUrl resource : String) (bodyInit : RequestInit)
    (loggedIn : Bool) (auth : ApiCredentials) : List Request :=
  issuedRequests (fetchR2ObjectsRequest baseUrl resource bodyInit loggedIn auth)

/-- The request built by `fetchWorker`. -/
def fetchWorkerRequest (baseUrl resource : String) (bodyInit : RequestInit)
    (loggedIn : Bool) (auth : ApiCredentials) : Except FetchErr Request :=
  if loggedIn = false then
    .error (.userError "Not logged in.")
  else
    .ok { method := bodyInit.method.getD "GET",
          url := baseUrl ++ resource,
          headers := buildHeaders bodyInit.headers auth,
          body := bodyInit.body }

/-- The worker script a successful `fetchWorker` resolves to. -/
structure WorkerScript where
  entrypoint : String
  modules : List FileV
deriving DecidableEq, Repr

/-- `contents instanceof File ? contents : new File([contents], filename)`. -/
def formFileOf : String × FormEntry → FileV
  | (_, .file f) => f
  | (filename, .str s) => { name := filename, contents := s }

/-- `fetchWorker`: throw on a non-ok or bodyless response; on a multipart
content type parse the form data into `File`s and take the entrypoint from
the `cf-entrypoint` header (default `src/index.js`); otherwise wrap the body
text as a single `index.js` file.  The source re-wrap of responses lacking a
`formData` method is a test-environment shim that preserves the form-data
view and is therefore not a separate branch here. -/
def fetchWorker (baseUrl resource : String) (bodyInit : RequestInit)
    (loggedIn : Bool) (auth : ApiCredentials) (resp : Resp) :
    Except FetchErr WorkerScript :=
  match fetchWorkerRequest baseUrl resource bodyInit loggedIn auth with
  | .error e => .error e
  | .ok _ =>
    if !(resp.ok && resp.body.isSome) then
      .error (.jsError (failedFetchMsg resource resp))
    else
      let usesModules := match headersGet resp.headers "content-type" with
        | some ct => strStartsWith ct "multipart"
        | none => false
      if usesModules then
        .ok { entrypoint := (headersGet resp.headers "cf-entrypoint").getD "src/index.js",
              modules := resp.form.map formFileOf }
      else
        .ok { entrypoint := "index.js",
              modules := [{ name := "index.js", contents := resp.text,
                            ftype := "text" }] }

/-- Requests issued by one `fetchWorker` call. -/
def fetchWorkerRequests (baseUrl resource : String) (bodyInit : RequestInit)
    (loggedIn : Bool) (auth : ApiCredentials) : List Request :=
  issuedRequests (fetchWorkerRequest baseUrl resource bodyInit loggedIn auth)

/-- The header object `performApiFetch` hands to the debug logger: a clone of
the outgoing headers with the `Authorization` entry deleted. -/
def requestLogHeaders (initHeaders : HeaderMap) (auth : ApiCredentials) :
    HeaderMap :=
  eraseH (cloneHeaders (buildHeaders initHeaders auth)) "Authorization"

/-- The header object `fetchInternal` hands to the debug logger for the
response: a clone of the response headers with `Authorization` deleted. -/
def responseLogHeaders (resp : Resp) : HeaderMap :=
  eraseH (cloneHeaders resp.headers) "Authorization"

/-- The HEADERS debug line of one `performApiFetch` call, emitted only once
the assert and the login check have passed. -/
def performApiFetchLog (baseUrl resource : String) (queryParams : Option String)
    (init : RequestInit) (loggedIn : Bool) (auth : ApiCredentials) :
    Option HeaderMap :=
  match performApiFetch baseUrl resource queryParams init loggedIn auth with
  | .error _ => none
  | .ok _ => some (requestLogHeaders init.headers auth)

/-- The bearer authentication form: an `Authorization` header is present. -/
def bearerFormPresent (h : HeaderMap) : Bool :=
  containsH h "Authorization"

/-- The legacy authentication form: the `X-Auth-Key` / `X-Auth-Email` pair is
present. -/
def keyPairFormPresent (h : HeaderMap) : Bool :=
  containsH h "X-Auth-Key" && containsH h "X-Auth-Email"

/-- Exactly one of the two authentication forms is present. -/
def exactlyOneAuthForm (h : HeaderMap) : Bool :=
  Bool.xor (bearerFormPresent h) (keyPairFormPresent h)

/-! ### Header-record lemmas -/

theorem lookupH_setH_self (h : HeaderMap) (k v : String) :
    lookupH (setH h k v) k = some v := by
  induction h with
  | nil => simp [setH, lookupH]
  | cons p t ih =>
    obtain ⟨a, b⟩ := p
    by_cases hk : a = k
    · simp [setH, hk, lookupH]
    · simp [setH, hk, lookupH, ih]

theorem lookupH_setH_ne (h : HeaderMap) (k v key : String) (hne : k ≠ key) :
    lookupH (setH h k v) key = lookupH h key := by
  induction h with
  | nil => simp [setH, lookupH, hne]
  | cons p t ih =>
    obtain ⟨a, b⟩ := p
    by_cases hk : a = k
    · subst hk
      simp [setH, lookupH, hne]
    · simp [setH, hk, lookupH, ih]

theorem containsH_setH (h : HeaderMap) (k v key : String) :
    containsH (setH h k v) key = ((k == key) || containsH h key) := by
  by_cases hk : k = key
  · subst hk
    simp [containsH, lookupH_setH_self]
  · simp [containsH, lookupH_setH_ne h k v key hk, hk]

theorem containsH_eq_any (h : HeaderMap) (key : String) :
    containsH h key = h.any (fun p => p.1 == key) := by
  induction h with
  | nil => rfl
  | cons p t ih =>
    obtain ⟨a, b⟩ := p
    by_cases hk : a = key
    · simp [containsH, lookupH, hk]
    · have hbk : (a == key) = false := by simp [hk]
      simp only [containsH, lookupH, if_neg hk, List.any_cons, hbk, Bool.false_or]
      exact ih

theorem containsH_foldl_setH (h : HeaderMap) :
    ∀ (acc : HeaderMap) (key : String),
      containsH (h.foldl (fun a p => setH a p.1 p.2) acc) key =
        (containsH acc key || h.any (fun p => p.1 == key)) := by
  induction h with
  | nil => simp
  | cons p t ih =>
    intro acc key
    simp [List.foldl_cons, ih, containsH_setH, List.any_cons]
    by_cases hk : p.1 = key <;> simp [hk, Bool.or_comm, Bool.or_assoc]

theorem containsH_cloneHeaders (h : HeaderMap) (key : String) :
    containsH (cloneHeaders h) key = containsH h key := by
  rw [cloneHeaders, containsH_foldl_setH h [] key, containsH_eq_any]
  simp only [containsH, lookupH, Option.isSome_none, Bool.false_or]
  exact (containsH_eq_any h key).symm

theorem lookupH_eq_none_of_not_containsH (h : HeaderMap) (key : String)
    (hc : containsH h key = false) : lookupH h key = none := by
  cases e : lookupH h key with
  | none => rfl
  | some v => simp [containsH, e] at hc

theorem lookupH_eraseH_self (h : HeaderMap) (key : String) :
    lookupH (eraseH h key) key = none := by
  induction h with
  | nil => simp [eraseH, lookupH]
  | cons p t ih =>
    obtain ⟨a, b⟩ := p
    by_cases hk : a = key
    · simp [eraseH, hk] at ih ⊢
      exact ih
    · simp [eraseH, hk, lookupH] at ih ⊢
      exact ih

theorem containsH_eraseH_self (h : HeaderMap) (key : String) :
    containsH (eraseH h key) key = false := by
  simp [containsH, lookupH_eraseH_self]

theorem eraseH_setH_self (h : HeaderMap) (k v : String) :
    eraseH (setH h k v) k = eraseH h k := by
  induction h with
  | nil => simp [setH, eraseH]
  | cons p t ih =>
    obtain ⟨a, b⟩ := p
    by_cases hk : a = k
    · subst hk
      simp [setH, eraseH]
    · have hbk : (a == k) = false := by simp [hk]
      simp only [setH, if_neg hk, eraseH, List.filter_cons, hbk, Bool.not_false]
      simpa [eraseH] using ih

theorem eraseH_setH_ne (h : HeaderMap) (k v key : String) (hne : k ≠ key) :
    eraseH (setH h k v) key = setH (eraseH h key) k v := by
  have hbk : (k == key) = false := by simp [hne]
  induction h with
  | nil => simp [setH, eraseH, hbk]
  | cons p t ih =>
    obtain ⟨a, b⟩ := p
    by_cases hak : a = k
    · subst hak
      simp [setH, eraseH, hbk]
    · by_cases hakey : a = key
      · have h1 : (a == key) = true := by simp [hakey]
        simp only [setH, if_neg hak, eraseH, List.filter_cons, h1, Bool.not_true]
        simpa [eraseH] using ih
      · have h1 : (a == key) = false := by simp [hakey]
        simp only [setH, if_neg hak, eraseH, List.filter_cons, h1, Bool.not_false]
        have ih2 := ih
        simp only [eraseH] at ih2
        rw [ih2]
        simp [setH, hak]

theorem eraseH_foldl_setH (h : HeaderMap) :
    ∀ (acc : HeaderMap) (key : String),
      eraseH (h.foldl (fun a p => setH a p.1 p.2) acc) key =
        (eraseH h key).foldl (fun a p => setH a p.1 p.2) (eraseH acc key) := by
  induction h with
  | nil => intro acc key; rfl
  | cons p t ih =>
    intro acc key
    by_cases hk : p.1 = key
    · subst hk
      rw [List.foldl_cons, ih, eraseH_setH_self]
      rw [show eraseH (p :: t) p.1 = eraseH t p.1 by simp [eraseH]]
    · rw [List.foldl_cons, ih, eraseH_setH_ne acc p.1 p.2 key hk]
      rw [show eraseH (p :: t) key = p :: eraseH t key by simp [eraseH, hk]]
      rw [List.foldl_cons]

theorem eraseH_cloneHeaders (h : HeaderMap) (key : String) :
    eraseH (cloneHeaders h) key = cloneHeaders (eraseH h key) := by
  simpa [cloneHeaders, eraseH] using eraseH_foldl_setH h [] key

/-! ### Derived facts about the logged headers -/

theorem requestLogHeaders_token_irrelevant (h : HeaderMap) (t1 t2 : String) :
    requestLogHeaders h (.apiToken t1) = requestLogHeaders h (.apiToken t2) := by
  unfold requestLogHeaders buildHeaders addUserAgent addAuthorizationHeaderIfUnspecified
  by_cases hc : containsH (cloneHeaders h) "Authorization" = true
  · simp [hc]
  · have hc2 : containsH (cloneHeaders h) "Authorization" = false :=
      Bool.eq_false_iff.mpr hc
    have hne : ("User-Agent" : String) ≠ "Authorization" := by decide
    simp only [hc2, Bool.false_eq_true, if_false]
    rw [eraseH_cloneHeaders, eraseH_cloneHeaders]
    rw [eraseH_setH_ne _ _ _ _ hne, eraseH_setH_ne _ _ _ _ hne]
    rw [eraseH_setH_self, eraseH_setH_self]

theorem containsH_requestLogHeaders (h : HeaderMap) (auth : ApiCredentials) :
    containsH (requestLogHeaders h auth) "Authorization" = false := by
  unfold requestLogHeaders
  rw [eraseH_cloneHeaders, containsH_cloneHeaders, containsH_eraseH_self]

theorem containsH_responseLogHeaders (resp : Resp) :
    containsH (responseLogHeaders resp) "Authorization" = false := by
  unfold responseLogHeaders
  rw [eraseH_cloneHeaders, containsH_cloneHeaders, containsH_eraseH_self]

theorem buildHeaders_authForms (h : HeaderMap) (auth : ApiCredentials)
    (hA : containsH h "Authorization" = false)
    (hK : containsH h "X-Auth-Key" = false)
    (hE : containsH h "X-Auth-Email" = false) :
    bearerFormPresent (buildHeaders h auth) = auth.isToken ∧
    keyPairFormPresent (buildHeaders h auth) = !auth.isToken := by
  have hA2 : containsH (cloneHeaders h) "Authorization" = false := by
    rw [containsH_cloneHeaders]; exact hA
  have hK2 : containsH (cloneHeaders h) "X-Auth-Key" = false := by
    rw [containsH_cloneHeaders]; exact hK
  have hE2 : containsH (cloneHeaders h) "X-Auth-Email" = false := by
    rw [containsH_cloneHeaders]; exact hE
  have e1 : (("User-Agent" : String) == "Authorization") = false := by decide
  have e2 : (("Authorization" : String) == "Authorization") = true := by decide
  have e3 : (("User-Agent" : String) == "X-Auth-Key") = false := by decide
  have e4 : (("Authorization" : String) == "X-Auth-Key") = false := by decide
  have e5 : (("X-Auth-Email" : String) == "X-Auth-Key") = false := by decide
  have e6 : (("X-Auth-Key" : String) == "X-Auth-Key") = true := by decide
  have e7 : (("User-Agent" : String) == "X-Auth-Email") = false := by decide
  have e8 : (("X-Auth-Email" : String) == "X-Auth-Email") = true := by decide
  have e9 : (("X-Auth-Key" : String) == "Authorization") = false := by decide
  have e10 : (("X-Auth-Email" : String) == "Authorization") = false := by decide
  cases auth with
  | apiToken t =>
    unfold bearerFormPresent keyPairFormPresent buildHeaders addUserAgent
      addAuthorizationHeaderIfUnspecified ApiCredentials.isToken
    simp only [hA2, Bool.false_eq_true, if_false, containsH_setH,
      e1, e2, e3, e4, hK2, Bool.false_or, Bool.or_false, Bool.or_true,
      Bool.not_true, Bool.and_false, Bool.false_and]
    refine ⟨by simp, by simp⟩
  | keyEmail k e =>
    unfold bearerFormPresent keyPairFormPresent buildHeaders addUserAgent
      addAuthorizationHeaderIfUnspecified ApiCredentials.isToken
    simp only [hA2, Bool.false_eq_true, if_false, containsH_setH,
      e1, e5, e6, e7, e8, e9, e10, hA2, hK2, hE2,
      Bool.false_or, Bool.or_false, Bool.or_true, Bool.true_or,
      Bool.not_false, Bool.and_true, Bool.true_and]
    refine ⟨by simp, by simp⟩

theorem addAuth_empty_authForms (auth : ApiCredentials) :
    bearerFormPresent (addAuthorizationHeaderIfUnspecified [] auth) = auth.isToken ∧
    keyPairFormPresent (addAuthorizationHeaderIfUnspecified [] auth) = !auth.isToken := by
  have e1 : (("X-Auth-Email" : String) == "X-Auth-Key") = false := by decide
  have e2 : (("X-Auth-Key" : String) == "X-Auth-Key") = true := by decide
  have e3 : (("X-Auth-Email" : String) == "X-Auth-Email") = true := by decide
  have e4 : (("Authorization" : String) == "Authorization") = true := by decide
  have e5 : (("Authorization" : String) == "X-Auth-Key") = false := by decide
  have e6 : (("X-Auth-Key" : String) == "Authorization") = false := by decide
  have e7 : (("X-Auth-Email" : String) == "Authorization") = false := by decide
  cases auth with
  | apiToken t =>
    unfold bearerFormPresent keyPairFormPresent addAuthorizationHeaderIfUnspecified
      ApiCredentials.isToken
    simp [containsH_setH, e4, e5, containsH, lookupH]
  | keyEmail k e =>
    unfold bearerFormPresent keyPairFormPresent addAuthorizationHeaderIfUnspecified
      ApiCredentials.isToken
    simp [containsH_setH, e1, e2, e3, e6, e7, containsH, lookupH]

/-! ### Claim theorems -/

/-- C1, counterexample: the claim fails as stated.  With a bearer-token
credential and caller-supplied `X-Auth-Key` / `X-Auth-Email` headers (but no
`Authorization` header), the outgoing request carries BOTH authentication
forms, so "never both" is violated. -/
theorem bothAuthForms_cex :
    (match performApiFetch "https://api.cloudflare.com/client/v4" "/zones" none
        { headers := [("X-Auth-Key", "legacy-key"), ("X-Auth-Email", "user@example.com")] }
        true (.apiToken "tok") with
      | .ok r => bearerFormPresent r.headers && keyPairFormPresent r.headers &&
          !(exactlyOneAuthForm r.headers)
      | .error _ => false) = true := by decide

/-- C1, amended: when the caller supplies none of the three authentication
headers (`Authorization`, `X-Auth-Key`, `X-Auth-Email`), every request built
by the transport carries exactly one authentication form — the bearer
`Authorization` header exactly when the credential has an `apiToken` field,
the `X-Auth-Key` / `X-Auth-Email` pair otherwise.  The `performApiFetch`,
R2 and worker requests all carry the `buildHeaders` pipeline output; the KV
request carries the authentication header added to a fresh empty record. -/
theorem transport_exactlyOneAuthForm (baseUrl resource : String)
    (qp : Option String) (init : RequestInit) (auth : ApiCredentials)
    (accountId namespaceId key : String)
    (hs : strStartsWith resource "/" = true)
    (hA : containsH init.headers "Authorization" = false)
    (hK : containsH init.headers "X-Auth-Key" = false)
    (hE : containsH init.headers "X-Auth-Email" = false) :
    exactlyOneAuthForm (buildHeaders init.headers auth) = true ∧
    bearerFormPresent (buildHeaders init.headers auth) = auth.isToken ∧
    exactlyOneAuthForm (addAuthorizationHeaderIfUnspecified [] auth) = true ∧
    bearerFormPresent (addAuthorizationHeaderIfUnspecified [] auth) = auth.isToken ∧
    performApiFetch baseUrl resource qp init true auth =
      .ok { method := init.method.getD "GET",
            url := baseUrl ++ resource ++
              (match qp with | some q => "?" ++ q | none => ""),
            headers := buildHeaders init.headers auth, body := init.body } ∧
    fetchR2ObjectsRequest baseUrl resource init true auth =
      .ok { method := init.method.getD "GET", url := baseUrl ++ resource,
            headers := buildHeaders init.headers auth, body := init.body } ∧
    fetchWorkerRequest baseUrl resource init true auth =
      .ok { method := init.method.getD "GET", url := baseUrl ++ resource,
            headers := buildHeaders init.headers auth, body := init.body } ∧
    fetchKVGetValueRequest baseUrl accountId namespaceId key true auth =
      .ok { method := "GET", url := kvResourceUrl baseUrl accountId namespaceId key,
            headers := addAuthorizationHeaderIfUnspecified [] auth, body := none } := by
  obtain ⟨hb, hp⟩ := buildHeaders_authForms init.headers auth hA hK hE
  obtain ⟨hb2, hp2⟩ := addAuth_empty_authForms auth
  have hxor : ∀ b : Bool, Bool.xor b (!b) = true := by decide
  refine ⟨?_, hb, ?_, hb2, ?_, ?_, ?_, ?_⟩
  · unfold exactlyOneAuthForm
    rw [hb, hp]
    exact hxor auth.isToken
  · unfold exactlyOneAuthForm
    rw [hb2, hp2]
    exact hxor auth.isToken
  · simp [performApiFetch, hs]
  · simp [fetchR2ObjectsRequest]
  · simp [fetchWorkerRequest]
  · simp [fetchKVGetValueRequest]

/-- C1, witness: a concrete caller with a content-type header and a token
credential gets exactly one authentication form. -/
theorem transport_exactlyOneAuthForm_witness :
    exactlyOneAuthForm
      (buildHeaders [("Content-Type", "application/json")] (.apiToken "tok")) = true :=
  (transport_exactlyOneAuthForm "https://api.cloudflare.com/client/v4" "/zones"
    none { headers := [("Content-Type", "application/json")] } (.apiToken "tok")
    "acc" "ns" "k" (by decide) (by decide) (by decide) (by decide)).1

/-- C2: when the caller set no `Authorization` header, a bearer credential
yields the header `Authorization: Bearer <token>`, and a key/email credential
yields the two headers `X-Auth-Key: <key>` and `X-Auth-Email: <email>`. -/
theorem addAuthorizationHeader_values (h : HeaderMap) (t k e : String)
    (hA : containsH h "Authorization" = false) :
    lookupH (addAuthorizationHeaderIfUnspecified h (.apiToken t)) "Authorization" =
      some ("Bearer " ++ t) ∧
    lookupH (addAuthorizationHeaderIfUnspecified h (.keyEmail k e)) "X-Auth-Key" =
      some k ∧
    lookupH (addAuthorizationHeaderIfUnspecified h (.keyEmail k e)) "X-Auth-Email" =
      some e := by
  have hne : ("X-Auth-Email" : String) ≠ "X-Auth-Key" := by decide
  unfold addAuthorizationHeaderIfUnspecified
  simp only [hA, Bool.false_eq_true, if_false]
  exact ⟨lookupH_setH_self h "Authorization" ("Bearer " ++ t),
    by rw [lookupH_setH_ne _ _ _ _ hne]; exact lookupH_setH_self h "X-Auth-Key" k,
    lookupH_setH_self _ "X-Auth-Email" e⟩

/-- C2, witness: concrete credentials produce the concrete headers. -/
theorem addAuthorizationHeader_values_witness :
    lookupH (addAuthorizationHeaderIfUnspecified [] (.apiToken "tok")) "Authorization" =
      some ("Bearer " ++ "tok") :=
  (addAuthorizationHeader_values [] "tok" "legacy-key" "user@example.com" rfl).1

/-- C10, counterexample: the claim fails as stated.  Two runs differing only
in a key/email credential value produce different header log output, because
only the `Authorization` entry is deleted before logging — the `X-Auth-Key`
entry (credential material) stays in the logged record. -/
theorem logHeaders_keyEmail_cex :
    requestLogHeaders [] (.keyEmail "key-one" "user@example.com") ≠
      requestLogHeaders [] (.keyEmail "key-two" "user@example.com") ∧
    lookupH (requestLogHeaders [] (.keyEmail "key-one" "user@example.com"))
      "X-Auth-Key" = some "key-one" := by
  constructor
  · decide
  · decide

/-- C10, amended: the logged request and response header records never
contain an `Authorization` entry, and two runs differing only in a
BEARER-TOKEN credential value produce identical header log output (key/email
credentials instead remain visible as `X-Auth-Key` / `X-Auth-Email`
entries). -/
theorem logHeaders_no_authorization (baseUrl resource : String)
    (qp : Option String) (init : RequestInit) (loggedIn : Bool)
    (t1 t2 : String) (auth : ApiCredentials) (resp : Resp) :
    performApiFetchLog baseUrl resource qp init loggedIn (.apiToken t1) =
      performApiFetchLog baseUrl resource qp init loggedIn (.apiToken t2) ∧
    containsH (requestLogHeaders init.headers auth) "Authorization" = false ∧
    containsH (responseLogHeaders resp) "Authorization" = false := by
  refine ⟨?_, containsH_requestLogHeaders init.headers auth,
    containsH_responseLogHeaders resp⟩
  unfold performApiFetchLog performApiFetch
  by_cases h1 : strStartsWith resource "/" = false
  · simp [h1]
  · by_cases h2 : loggedIn = false
    · simp [h1, h2]
    · simp only [h1, h2]
      simp
      exact requestLogHeaders_token_irrelevant init.headers t1 t2

theorem performApiFetch_ok (baseUrl resource : String) (qp : Option String)
    (init : RequestInit) (auth : ApiCredentials)
    (hs : strStartsWith resource "/" = true) :
    performApiFetch baseUrl resource qp init true auth =
      .ok { method := init.method.getD "GET",
            url := baseUrl ++ resource ++
              (match qp with | some q => "?" ++ q | none => ""),
            headers := buildHeaders init.headers auth, body := init.body } := by
  simp [performApiFetch, hs]

theorem issuedRequests_len (e : Except FetchErr Request) :
    (issuedRequests e).length ≤ 1 := by
  cases e <;> simp [issuedRequests]

/-- C3: on an empty body with status 204 or 205, `fetchInternal` returns the
parse of the literal success envelope instead of failing on the empty body;
the envelope is exactly the four-field vendor wrapper. -/
theorem fetchInternal_emptyBody {J : Type} (parse : String → Option J)
    (baseUrl resource : String) (qp : Option String) (init : RequestInit)
    (auth : ApiCredentials) (resp : Resp) (v : J)
    (hs : strStartsWith resource "/" = true)
    (hempty : resp.text = "")
    (hst : resp.status = 204 ∨ resp.status = 205)
    (hp : parse emptyBody = some v) :
    fetchInternal parse baseUrl resource qp init true auth resp = .ok v ∧
    emptyBody =
      "\x7b\"result\": \x7b\x7d, \"success\": true, \"errors\": [], \"messages\": []\x7d" := by
  have hperf := performApiFetch_ok baseUrl resource qp init auth hs
  refine ⟨?_, rfl⟩
  rcases hst with h204 | h204 <;>
    simp [fetchInternal, hperf, hempty, h204, hp]

/-- C3, witness: a concrete 204 response with no body parses to the envelope
parse result. -/
theorem fetchInternal_emptyBody_witness :
    fetchInternal (fun _ => some (0 : Nat)) "https://api.cloudflare.com/client/v4"
      "/zones" none {} true (.apiToken "tok")
      { status := 204, statusText := "No Content" } = .ok 0 :=
  (fetchInternal_emptyBody (fun _ => some (0 : Nat))
    "https://api.cloudflare.com/client/v4" "/zones" none {} (.apiToken "tok")
    { status := 204, statusText := "No Content" } 0 (by decide) rfl
    (Or.inl rfl) rfl).1

/-- C9: when the body text fails to parse (and the empty-body 204/205 case
does not apply), `fetchInternal` throws an `APIError` whose status is the
HTTP status and whose first note is the body truncated to 100 characters;
`truncate` keeps bodies of length at most 100 verbatim and otherwise emits
the 100-character prefix followed by the length marker. -/
theorem fetchInternal_malformed {J : Type} (parse : String → Option J)
    (baseUrl resource : String) (qp : Option String) (init : RequestInit)
    (auth : ApiCredentials) (resp : Resp)
    (hs : strStartsWith resource "/" = true)
    (hp : parse resp.text = none)
    (hn : ¬(resp.text = "" ∧ (resp.status = 204 ∨ resp.status = 205))) :
    fetchInternal parse baseUrl resource qp init true auth resp =
      .error (.apiError
        { text := "Received a malformed response from the API",
          notes := [truncate resp.text 100,
            init.method.getD "GET" ++ " " ++ resource ++ " -> " ++
              toString resp.status ++ " " ++ resp.statusText],
          status := resp.status }) ∧
    (resp.text.length ≤ 100 → truncate resp.text 100 = resp.text) ∧
    (100 < resp.text.length →
      truncate resp.text 100 =
        resp.text.take 100 ++ "... (length = " ++ toString resp.text.length ++ ")") := by
  have hperf := performApiFetch_ok baseUrl resource qp init auth hs
  refine ⟨?_, ?_, ?_⟩
  · simp [fetchInternal, hperf, hp, hn]
  · intro hl
    simp [truncate, hl]
  · intro hl
    rw [truncate, if_neg (by omega)]

/-- C9, witness: a concrete malformed 500 response produces the concrete
`APIError`. -/
theorem fetchInternal_malformed_witness :
    fetchInternal (fun _ => (none : Option Nat))
      "https://api.cloudflare.com/client/v4" "/zones" none {} true
      (.apiToken "tok")
      { status := 500, statusText := "Internal Server Error",
        body := some "<html>bad gateway</html>" } =
      .error (.apiError
        { text := "Received a malformed response from the API",
          notes := [truncate "<html>bad gateway</html>" 100,
            "GET" ++ " " ++ "/zones" ++ " -> " ++ toString (500 : Nat) ++ " " ++
              "Internal Server Error"],
          status := 500 }) :=
  (fetchInternal_malformed (fun _ => (none : Option Nat))
    "https://api.cloudflare.com/client/v4" "/zones" none {} (.apiToken "tok")
    { status := 500, statusText := "Internal Server Error",
      body := some "<html>bad gateway</html>" } (by decide) rfl (by decide)).1

/-- C8: a resource not starting with `/` makes `performApiFetch` (and hence
`fetchInternal`) fail on the assertion regardless of login state, before any
request is issued; when the resource does start with `/`, the assertion
branch is unreachable. -/
theorem performApiFetch_assert (baseUrl resource : String) (qp : Option String)
    (init : RequestInit) :
    (strStartsWith resource "/" = false →
      ∀ (loggedIn : Bool) (auth : ApiCredentials),
        performApiFetch baseUrl resource qp init loggedIn auth =
          .error (.assertFail (assertMsg resource)) ∧
        performApiFetchRequests baseUrl resource qp init loggedIn auth = [] ∧
        ∀ (J : Type) (parse : String → Option J) (resp : Resp),
          fetchInternal parse baseUrl resource qp init loggedIn auth resp =
            .error (.assertFail (assertMsg resource))) ∧
    (strStartsWith resource "/" = true →
      ∀ (loggedIn : Bool) (auth : ApiCredentials) (msg : String),
        performApiFetch baseUrl resource qp init loggedIn auth ≠
          .error (.assertFail msg)) := by
  constructor
  · intro h loggedIn auth
    refine ⟨?_, ?_, ?_⟩
    · simp [performApiFetch, h]
    · simp [performApiFetchRequests, issuedRequests, performApiFetch, h]
    · intro J parse resp
      simp [fetchInternal, performApiFetch, h]
  · intro h loggedIn auth msg
    cases hl : loggedIn <;> simp [performApiFetch, h, hl]

/-- C8, witness: the concrete resource `zones` (no leading slash) hits the
assertion even when logged in. -/
theorem performApiFetch_assert_witness :
    performApiFetch "https://api.cloudflare.com/client/v4" "zones" none {} true
      (.apiToken "tok") = .error (.assertFail (assertMsg "zones")) :=
  (((performApiFetch_assert "https://api.cloudflare.com/client/v4" "zones" none
    {}).1 (by decide)) true (.apiToken "tok")).1

/-- C4: every exported operation issues at most one outbound request per
call; the operations are pure functions of their inputs, so no state carries
over between calls. -/
theorem transport_atMostOneFetch (baseUrl resource accountId namespaceId key : String)
    (qp : Option String) (init : RequestInit) (loggedIn : Bool)
    (auth : ApiCredentials) :
    (performApiFetchRequests baseUrl resource qp init loggedIn auth).length ≤ 1 ∧
    (fetchInternalRequests baseUrl resource qp init loggedIn auth).length ≤ 1 ∧
    (fetchKVGetValueRequests baseUrl accountId namespaceId key loggedIn auth).length ≤ 1 ∧
    (fetchR2ObjectsRequests baseUrl resource init loggedIn auth).length ≤ 1 ∧
    (fetchWorkerRequests baseUrl resource init loggedIn auth).length ≤ 1 :=
  ⟨issuedRequests_len _, issuedRequests_len _, issuedRequests_len _,
    issuedRequests_len _, issuedRequests_len _⟩

/-- C5: `fetchKVGetValue` returns the raw body buffer unparsed on every ok
(2xx) response, and on every other response throws an `Error` naming the full
resource URL, the status code and the status text. -/
theorem fetchKVGetValue_spec (baseUrl accountId namespaceId key : String)
    (auth : ApiCredentials) (resp : Resp) :
    (resp.ok = true →
      fetchKVGetValue baseUrl accountId namespaceId key true auth resp =
        .ok resp.arrayBuffer) ∧
    (resp.ok = false →
      fetchKVGetValue baseUrl accountId namespaceId key true auth resp =
        .error (.jsError ("Failed to fetch " ++
          kvResourceUrl baseUrl accountId namespaceId key ++ " - " ++
          toString resp.status ++ ": " ++ resp.statusText ++ ");"))) := by
  constructor <;> intro h <;>
    simp [fetchKVGetValue, fetchKVGetValueRequest, failedFetchMsg, h]

/-- C5, witness: a concrete 200 response returns its raw bytes. -/
theorem fetchKVGetValue_spec_witness :
    fetchKVGetValue "https://api.cloudflare.com/client/v4" "acc" "ns" "key1"
      true (.apiToken "tok")
      { status := 200, statusText := "OK", body := some "raw-bytes" } =
      .ok "raw-bytes" :=
  (fetchKVGetValue_spec "https://api.cloudflare.com/client/v4" "acc" "ns" "key1"
    (.apiToken "tok")
    { status := 200, statusText := "OK", body := some "raw-bytes" }).1 (by decide)

/-- C6: `fetchR2Objects` returns the response unparsed when it is ok with a
non-null body, returns null when that fails and the status is exactly 404,
and otherwise (including ok with a null body) throws an `Error` naming the
resource, status code and status text. -/
theorem fetchR2Objects_spec (baseUrl resource : String) (bodyInit : RequestInit)
    (auth : ApiCredentials) (resp : Resp) :
    ((resp.ok && resp.body.isSome) = true →
      fetchR2Objects baseUrl resource bodyInit true auth resp = .ok (some resp)) ∧
    ((resp.ok && resp.body.isSome) = false → resp.status = 404 →
      fetchR2Objects baseUrl resource bodyInit true auth resp = .ok none) ∧
    ((resp.ok && resp.body.isSome) = false → resp.status ≠ 404 →
      fetchR2Objects baseUrl resource bodyInit true auth resp =
        .error (.jsError ("Failed to fetch " ++ resource ++ " - " ++
          toString resp.status ++ ": " ++ resp.statusText ++ ");"))) := by
  refine ⟨?_, ?_, ?_⟩
  · intro h
    simp [fetchR2Objects, fetchR2ObjectsRequest, h]
  · intro h h4
    simp [fetchR2Objects, fetchR2ObjectsRequest, h, h4]
  · intro h h4
    simp [fetchR2Objects, fetchR2ObjectsRequest, failedFetchMsg, h, h4]

/-- C6, witness: a concrete 404 response resolves to null. -/
theorem fetchR2Objects_spec_witness :
    fetchR2Objects "https://api.cloudflare.com/client/v4" "/accounts/a/r2/buckets/b/objects/o"
      {} true (.apiToken "tok") { status := 404, statusText := "Not Found" } =
      .ok none :=
  (fetchR2Objects_spec "https://api.cloudflare.com/client/v4"
    "/accounts/a/r2/buckets/b/objects/o" {} (.apiToken "tok")
    { status := 404, statusText := "Not Found" }).2.1 (by decide) rfl

/-- C7: `fetchWorker` throws on every non-ok or bodyless response; on a
multipart content type it maps each form entry to a `File` (wrapping plain
entries under their field name) with the entrypoint taken from the
`cf-entrypoint` header, defaulting to `src/index.js`; otherwise it yields a
single `index.js` file holding the body text with entrypoint `index.js`. -/
theorem fetchWorker_spec (baseUrl resource : String) (bodyInit : RequestInit)
    (auth : ApiCredentials) (resp : Resp) :
    ((resp.ok && resp.body.isSome) = false →
      fetchWorker baseUrl resource bodyInit true auth resp =
        .error (.jsError ("Failed to fetch " ++ resource ++ " - " ++
          toString resp.status ++ ": " ++ resp.statusText ++ ");"))) ∧
    ((resp.ok && resp.body.isSome) = true →
      (match headersGet resp.headers "content-type" with
        | some ct => strStartsWith ct "multipart"
        | none => false) = true →
      fetchWorker baseUrl resource bodyInit true auth resp =
        .ok { entrypoint := (headersGet resp.headers "cf-entrypoint").getD "src/index.js",
              modules := resp.form.map formFileOf }) ∧
    ((resp.ok && resp.body.isSome) = true →
      (match headersGet resp.headers "content-type" with
        | some ct => strStartsWith ct "multipart"
        | none => false) = false →
      fetchWorker baseUrl resource bodyInit true auth resp =
        .ok { entrypoint := "index.js",
              modules := [{ name := "index.js", contents := resp.text,
                            ftype := "text" }] }) := by
  refine ⟨?_, ?_, ?_⟩
  · intro h
    simp [fetchWorker, fetchWorkerRequest, failedFetchMsg, h]
  · intro h hm
    simp [fetchWorker, fetchWorkerRequest, h, hm]
  · intro h hm
    simp [fetchWorker, fetchWorkerRequest, h, hm]

/-- C7, witness: a concrete multipart response maps its two form entries to
files and takes the entrypoint from the `cf-entrypoint` header. -/
theorem fetchWorker_spec_witness :
    fetchWorker "https://api.cloudflare.com/client/v4"
      "/accounts/a/workers/scripts/s" {} true (.apiToken "tok")
      { status := 200, statusText := "OK",
        headers := [("content-type", "multipart/form-data; boundary=x"),
          ("cf-entrypoint", "main.js")],
        body := some "raw-multipart",
        form := [("helper.js", .str "export const n = 1"),
          ("b.js", .file
            { name := "b.js", contents := "export default x",
              ftype := "application/javascript+module" })] } =
      .ok { entrypoint := "main.js",
            modules := [{ name := "helper.js", contents := "export const n = 1" },
              { name := "b.js", contents := "export default x",
                ftype := "application/javascript+module" }] } :=
  (fetchWorker_spec "https://api.cloudflare.com/client/v4"
    "/accounts/a/workers/scripts/s" {} (.apiToken "tok")
    { status := 200, statusText := "OK",
      headers := [("content-type", "multipart/form-data; boundary=x"),
        ("cf-entrypoint", "main.js")],
      body := some "raw-multipart",
      form := [("helper.js", .str "export const n = 1"),
        ("b.js", .file
          { name := "b.js", contents := "export default x",
            ftype := "application/javascript+module" })] }).2.1 (by decide) (by decide)
